import Mathlib

/-!
Verification development for the ColorSnap screen color-picker core
(`src-tauri/src/color_picker.rs`, `storage.rs`, `lib.rs`).

The Rust core is shallowly embedded: pure computations (hex formatting,
alpha premultiplication, capture-rectangle clamping, JSON
serialisation shape) are translated directly; OS interactions
(cursor position query, `GetPixel`, monitor enumeration, screen
rasterisation, file system) are parameterised by explicit environment
records whose fields carry the outcome each OS call would report, so
that every branch of the Rust functions is represented.  Machine
integers are `Nat`/`Int`; a cast such as `as u32` on an `i32` value is
written as an explicit reduction modulo `2 ^ 32`.
-/

/-! ## Hex colour formatting (`format!("#{:02X}{:02X}{:02X}", r, g, b)`) -/

/-- One uppercase hexadecimal digit, as produced by Rust's `{:X}`
formatting: `0`–`9` then `A`–`F`. -/
def hexDigit (n : Nat) : Char :=
  if n < 10 then Char.ofNat (48 + n) else Char.ofNat (55 + n)

/-- The two-digit zero-padded uppercase rendering `{:02X}` of a byte. -/
def byteToHex (n : Nat) : List Char :=
  [hexDigit (n / 16), hexDigit (n % 16)]

/-- The hex string built at `color_picker.rs:65` and `:252`:
`format!("#{:02X}{:02X}{:02X}", r, g, b)`. -/
def rgb_to_hex (r g b : Nat) : String :=
  ⟨'#' :: (byteToHex r ++ byteToHex g ++ byteToHex b)⟩

/-- Numeric value of one hexadecimal digit character. -/
def hexVal (c : Char) : Option Nat :=
  if 48 ≤ c.toNat ∧ c.toNat ≤ 57 then some (c.toNat - 48)
  else if 65 ≤ c.toNat ∧ c.toNat ≤ 70 then some (c.toNat - 55)
  else if 97 ≤ c.toNat ∧ c.toNat ≤ 102 then some (c.toNat - 87)
  else none

/-- Modelled from the spec: the canonical `#RRGGBB` parser used by the
spec's round-trip property `hex_to_rgb(rgb_to_hex(c)) == c` (§8).  The
Rust core itself contains no hex parser; this definition follows the
spec's words for the decoding direction. -/
def hex_to_rgb (s : String) : Option (Nat × Nat × Nat) :=
  match s.data with
  | ['#', a, b, c, d, e, f] => do
      let r1 ← hexVal a
      let r0 ← hexVal b
      let g1 ← hexVal c
      let g0 ← hexVal d
      let b1 ← hexVal e
      let b0 ← hexVal f
      some (16 * r1 + r0, 16 * g1 + g0, 16 * b1 + b0)
  | _ => none

/-- A character Rust's `{:02X}` can emit: `0`–`9` or `A`–`F`. -/
def isUpperHexDigit (c : Char) : Bool :=
  (48 ≤ c.toNat && c.toNat ≤ 57) || (65 ≤ c.toNat && c.toNat ≤ 70)

/-! ## Pixel sampler (`get_pixel_color`, `get_color_at_cursor`) -/

/-- The GDI sentinel for a failed pixel read. -/
def CLR_INVALID : Nat := 4294967295

/-- `get_pixel_color` (`color_picker.rs:34-56`).  `dcOk` is whether
`GetDC` returned a valid device context; `colorref` is the raw `u32`
`COLORREF` returned by `GetPixel`.  Besides the `Result`, the model
returns the number of device contexts acquired and released, to account
for `GetDC`/`ReleaseDC` on each exit path.  The channel extraction
mirrors the BGR layout: `r = v & 0xFF`, `g = (v >> 8) & 0xFF`,
`b = (v >> 16) & 0xFF`. -/
def get_pixel_color (dcOk : Bool) (colorref : Nat) :
    Except String (Nat × Nat × Nat) × Nat × Nat :=
  if ¬dcOk then (.error "Failed to get device context", 0, 0)
  else if colorref = CLR_INVALID then (.error "Failed to get pixel color", 1, 1)
  else (.ok (colorref % 256, colorref / 256 % 256, colorref / 65536 % 256), 1, 1)

/-- The `ColorInfo` payload (`lib.rs:31-37`). -/
structure ColorInfo where
  hex : String
  rgb : Nat × Nat × Nat
  x : Int
  y : Int
deriving Repr, DecidableEq

/-- `get_color_at_cursor` (`color_picker.rs:60-70`): `cursorPos` is the
outcome of `GetCursorPos`. -/
def get_color_at_cursor (cursorPos : Except String (Int × Int))
    (dcOk : Bool) (colorref : Nat) : Except String ColorInfo := do
  let (x, y) ← cursorPos
  let (r, g, b) ← (get_pixel_color dcOk colorref).1
  .ok { hex := rgb_to_hex r g b, rgb := (r, g, b), x := x, y := y }

/-! ## Cursor synthesizer premultiplication (`color_picker.rs:127-139`) -/

/-- The per-pixel body of the copy loop: straight RGBA in, premultiplied
BGRA out; each `as u8` cast is an explicit `% 256`. -/
def premultPixel (r g b a : Nat) : Nat × Nat × Nat × Nat :=
  (b * a / 255 % 256, g * a / 255 % 256, r * a / 255 % 256, a % 256)

/-- The whole copy loop over the flat RGBA byte buffer, four bytes per
pixel, writing `dst[i*4..i*4+4]` from `pixels[i*4..i*4+4]`. -/
def premultiplyBuffer : List Nat → List Nat
  | r :: g :: b :: a :: rest =>
      b * a / 255 % 256 :: g * a / 255 % 256 :: r * a / 255 % 256 :: a % 256 ::
        premultiplyBuffer rest
  | rest => rest

/-! ## System cursor state machine -/

/-- `static CURSOR_CHANGED: AtomicBool = AtomicBool::new(false)`
(`color_picker.rs:6`). -/
def CURSOR_CHANGED_INIT : Bool := false

/-- Outcomes of the fallible steps of `set_pick_cursor`
(`color_picker.rs:74-169`): PNG decode, `CreateDIBSection`, the DIB bits
pointer null check, `CreateIconIndirect`, and `SetSystemCursor`. -/
structure SetCursorEnv where
  decodeOk : Bool
  dibOk : Bool
  bitsNull : Bool
  iconOk : Bool
  installOk : Bool
deriving Repr, DecidableEq

/-- Handle accounting for one call: device contexts acquired/released
and GDI bitmaps created/deleted. -/
structure ResTrace where
  dcAcquired : Nat
  dcReleased : Nat
  bmpCreated : Nat
  bmpDeleted : Nat
deriving Repr, DecidableEq

/-- `set_pick_cursor` (`color_picker.rs:74-169`), returning the new
`CURSOR_CHANGED` value together with its handle trace.  Branches follow
the source: decode failure returns before `GetDC`; DIB failure releases
the DC; a null bits pointer deletes the colour bitmap then releases the
DC; after `CreateBitmap` produced the mask, both the icon-failure arm
and the success arm fall through to the common cleanup that deletes the
mask and colour bitmaps and releases the DC; `CURSOR_CHANGED` is stored
`true` only when `SetSystemCursor` reported success. -/
def set_pick_cursor (env : SetCursorEnv) (st : Bool) : Bool × ResTrace :=
  if ¬env.decodeOk then (st, ⟨0, 0, 0, 0⟩)
  else if ¬env.dibOk then (st, ⟨1, 1, 0, 0⟩)
  else if env.bitsNull then (st, ⟨1, 1, 1, 1⟩)
  else if ¬env.iconOk then (st, ⟨1, 1, 2, 2⟩)
  else if env.installOk then (true, ⟨1, 1, 2, 2⟩)
  else (st, ⟨1, 1, 2, 2⟩)

/-- `restore_default_cursor` (`color_picker.rs:173-185`): when the flag
is set, issue `SystemParametersInfoW(SPI_SETCURSORS, ...)` (its result
`osOk` is discarded by `let _ =`) and store `false`; otherwise do
nothing.  The second component counts OS restore calls issued. -/
def restore_default_cursor (osOk : Bool) (st : Bool) : Bool × Nat :=
  if st then
    let _ := osOk
    (false, 1)
  else (st, 0)

/-- Modelled from the spec: `restore_default_cursor_force` is invoked at
startup (`lib.rs:210`) but its body is absent from the sources under
`src/`; per §4.4 it issues the same OS restore call unconditionally and
ignores the in-memory flag entirely. -/
def restore_default_cursor_force (st : Bool) : Bool × Nat :=
  (st, 1)

/-- The cursor-related action the `setup` closure of `run`
(`lib.rs:208-211`) performs: exactly one forced restore, before any
other cursor operation of the process. -/
def appSetupCursorAction (st : Bool) : Bool × Nat :=
  restore_default_cursor_force st

/-! ## Region capturer (`capture_zoom_preview`, `color_picker.rs:189-260`) -/

/-- One monitor as seen by the capture code: `x()`, `y()`, and
`width() as i32` / `height() as i32`. -/
structure Display where
  x : Int
  y : Int
  w : Int
  h : Int
deriving Repr, DecidableEq

/-- The containment test of the `find` closure (`color_picker.rs:200-206`). -/
def containsPt (m : Display) (cx cy : Int) : Bool :=
  cx ≥ m.x && cx < m.x + m.w && cy ≥ m.y && cy < m.y + m.h

/-- `monitors.into_iter().find(...)` over the enumerated displays. -/
def findMonitor (ms : List Display) (cx cy : Int) : Option Display :=
  ms.find? (fun m => containsPt m cx cy)

/-- An `i32` value cast `as u32`: reduction modulo `2 ^ 32` of the
two's-complement value. -/
def u32cast (n : Int) : Nat := (n % 4294967296).toNat

/-- The computed capture rectangle: origin in monitor-local coordinates
plus clamped extents. -/
structure CaptureRect where
  x : Int
  y : Int
  w : Nat
  h : Nat
deriving Repr, DecidableEq

/-- Lines 209-224: `half_size = (size / 2) as i32`;
`rel = cursor - monitor.origin`;
`capture_origin = (rel - half_size).max(0)` componentwise;
`capture_w = size.min((monitor_w - capture_x) as u32)` and likewise for
the height. -/
def captureBounds (size : Nat) (m : Display) (cx cy : Int) : CaptureRect :=
  let half : Int := (size / 2 : Nat)
  let relX := cx - m.x
  let relY := cy - m.y
  let capX := max (relX - half) 0
  let capY := max (relY - half) 0
  { x := capX, y := capY
    w := min size (u32cast (m.w - capX))
    h := min size (u32cast (m.h - capY)) }

/-- The `ZoomPreviewData` payload (`lib.rs:48-54`). -/
structure ZoomPreviewData where
  image_data : String
  center_color : ColorInfo
  width : Nat
  height : Nat
deriving Repr, DecidableEq

/-- Environment of one `capture_zoom_preview` call: `GetCursorPos`
outcome, pixel-sampler inputs, `Monitor::all()` outcome, the
`capture_image` outcome, and the PNG+base64 encoding outcome (the
encoded bytes themselves are opaque to this model — the claims concern
geometry and the centre colour, not raster contents). -/
structure ZoomEnv where
  cursorPos : Except String (Int × Int)
  dcOk : Bool
  colorref : Nat
  monitors : Except String (List Display)
  captured : Except String Unit
  encoded : Except String String
deriving Repr

/-- `capture_zoom_preview` (`color_picker.rs:189-260`). -/
def capture_zoom_preview (env : ZoomEnv) (size : Nat) :
    Except String ZoomPreviewData := do
  let (cx, cy) ← env.cursorPos
  let (r, g, b) ← (get_pixel_color env.dcOk env.colorref).1
  let ms ← env.monitors
  match findMonitor ms cx cy with
  | none => .error "Could not find monitor containing cursor"
  | some m =>
      let rect := captureBounds size m cx cy
      let _ ← env.captured
      let data ← env.encoded
      .ok { image_data := data
            center_color :=
              { hex := rgb_to_hex r g b, rgb := (r, g, b), x := cx, y := cy }
            width := rect.w
            height := rect.h }

/-! ## Non-Windows fallbacks (`color_picker.rs:262-277`) -/

/-- `#[cfg(not(windows))] get_color_at_cursor`. -/
def get_color_at_cursor_nonwindows : Except String ColorInfo :=
  .error "Color picking is only supported on Windows"

/-- `#[cfg(not(windows))] capture_zoom_preview`. -/
def capture_zoom_preview_nonwindows (size : Nat) :
    Except String ZoomPreviewData :=
  let _ := size
  .error "Zoom preview is only supported on Windows"

/-- `#[cfg(not(windows))] set_pick_cursor` is an empty body; the
`CURSOR_CHANGED` flag (and everything else) is untouched. -/
def set_pick_cursor_nonwindows (st : Bool) : Bool := st

/-- `#[cfg(not(windows))] restore_default_cursor` is an empty body. -/
def restore_default_cursor_nonwindows (st : Bool) : Bool := st

/-! ## History storage (`storage.rs`)

`save_color_history` serialises a `Vec<ColorEntry>` with
`serde_json::to_string_pretty` and writes it to `color_history.json`;
`load_color_history` returns an empty vector when the file is missing and
otherwise parses it with `serde_json::from_str`.  The text layer of
`serde_json` (pretty-printing and re-parsing, which the library
guarantees to round-trip) is abstracted: files hold JSON values, and the
serialiser/deserialiser below reproduce the shape `serde`'s derived
implementations give `ColorEntry` (field order `id`, `hex`, `rgb`,
`timestamp`, `label`; `[u8; 3]` as an array of exactly three in-range
numbers; `Option<String>` as a string or `null`, with a missing field
read as `None`). -/

/-- JSON values, as far as this storage format needs them. -/
inductive Json where
  | null : Json
  | str : String → Json
  | num : Nat → Json
  | arr : List Json → Json
  | obj : List (String × Json) → Json
deriving Repr

/-- The `ColorEntry` record (`lib.rs:39-46`). -/
structure ColorEntry where
  id : String
  hex : String
  rgb : Nat × Nat × Nat
  timestamp : Nat
  label : Option String
deriving Repr, DecidableEq

/-- Derived `Serialize` for `ColorEntry`. -/
def serializeEntry (e : ColorEntry) : Json :=
  .obj [("id", .str e.id), ("hex", .str e.hex),
        ("rgb", .arr [.num e.rgb.1, .num e.rgb.2.1, .num e.rgb.2.2]),
        ("timestamp", .num e.timestamp),
        ("label", match e.label with | some l => .str l | none => .null)]

/-- First field with the given key, as `serde` map access. -/
def jLookup (fields : List (String × Json)) (key : String) : Option Json :=
  (fields.find? (fun p => p.1 = key)).map Prod.snd

/-- A JSON value read back as a `String`. -/
def asStr : Json → Option String
  | .str s => some s
  | _ => none

/-- A JSON value read back as a `u8`. -/
def asU8 : Json → Option Nat
  | .num n => if n < 256 then some n else none
  | _ => none

/-- A JSON value read back as a `u64`. -/
def asU64 : Json → Option Nat
  | .num n => if n < 18446744073709551616 then some n else none
  | _ => none

/-- Derived `Deserialize` for `ColorEntry`: every non-`Option` field is
required, `rgb` must be an array of exactly three bytes, and a missing
or `null` `label` becomes `None`. -/
def deserializeEntry (j : Json) : Option ColorEntry :=
  match j with
  | .obj fields => do
      let id ← jLookup fields "id" >>= asStr
      let hex ← jLookup fields "hex" >>= asStr
      let rgb ←
        match jLookup fields "rgb" with
        | some (.arr [a, b, c]) => do
            let r ← asU8 a
            let g ← asU8 b
            let bl ← asU8 c
            pure (r, g, bl)
        | _ => none
      let ts ← jLookup fields "timestamp" >>= asU64
      let label ←
        match jLookup fields "label" with
        | none => some Option.none
        | some .null => some Option.none
        | some (.str s) => some (some s)
        | some _ => none
      pure ⟨id, hex, rgb, ts, label⟩
  | _ => none

/-- `Vec<ColorEntry>` serialised as a JSON array. -/
def serializeEntries (es : List ColorEntry) : Json :=
  .arr (es.map serializeEntry)

/-- A sequence of entries parsed in order; the whole parse fails when
any element fails. -/
def deserializeEntryList : List Json → Option (List ColorEntry)
  | [] => some []
  | j :: rest => do
      let e ← deserializeEntry j
      let es ← deserializeEntryList rest
      pure (e :: es)

/-- `Vec<ColorEntry>` parsed from a JSON value. -/
def deserializeEntries (j : Json) : Option (List ColorEntry) :=
  match j with
  | .arr items => deserializeEntryList items
  | _ => none

/-- Storage environment: whether `get_storage_path` (app-data directory
resolution plus `create_dir_all`) succeeds, the current contents of
`color_history.json` (`none` = file absent), and whether `fs::write`
succeeds. -/
structure StorageEnv where
  pathOk : Bool
  file : Option Json
  writeOk : Bool
deriving Repr

/-- `load_color_history` (`storage.rs:33-47`). -/
def load_color_history (env : StorageEnv) : Except String (List ColorEntry) :=
  if ¬env.pathOk then .error "Failed to get app data directory"
  else
    match env.file with
    | none => .ok []
    | some j =>
        match deserializeEntries j with
        | some cs => .ok cs
        | none => .error "Failed to parse history file"

/-- `save_color_history` (`storage.rs:20-31`), returning the updated
store. -/
def save_color_history (env : StorageEnv) (colors : List ColorEntry) :
    Except String StorageEnv :=
  if ¬env.pathOk then .error "Failed to get app data directory"
  else if ¬env.writeOk then .error "Failed to write history file"
  else .ok { env with file := some (serializeEntries colors) }

/-! ## Helper lemmas -/

/-- A premultiplied channel value stays below 256, so the `as u8` cast
is the identity. -/
theorem premulChannel_lt (x y : Nat) (hx : x < 256) (hy : y < 256) :
    x * y / 255 < 256 := by
  have hxy : x * y ≤ 255 * 255 := Nat.mul_le_mul (by omega) (by omega)
  omega

/-! ## Claims -/

/-- C3: the startup sequence performs exactly one forced cursor
restoration, and `restore_default_cursor_force` issues the OS restore
call (count 1) for every value of the in-memory flag, in particular when
the flag is already `false`, leaving the flag unread and unwritten. -/
theorem force_restore_at_startup (st : Bool) :
    appSetupCursorAction st = restore_default_cursor_force st
    ∧ (restore_default_cursor_force st).2 = 1
    ∧ (restore_default_cursor_force st).1 = st
    ∧ (restore_default_cursor_force false).2 = 1 :=
  ⟨rfl, rfl, rfl, rfl⟩

/-- C4: the cursor synthesizer's copy loop turns each straight-RGBA
pixel into premultiplied output in reversed channel order, each colour
channel being `src * alpha / 255` with truncating division, the alpha
byte passed through unchanged; for `alpha = 255` the channel is the
identity, for `alpha = 0` it is zero, and for `alpha = 128` it is
`input * 128 / 255` rounded down. -/
theorem premultiply_exact (r g b a : Nat)
    (hr : r < 256) (hg : g < 256) (hb : b < 256) (ha : a < 256) :
    (∀ rest : List Nat, premultiplyBuffer (r :: g :: b :: a :: rest) =
      b * a / 255 :: g * a / 255 :: r * a / 255 :: a :: premultiplyBuffer rest)
    ∧ premultPixel r g b a = (b * a / 255, g * a / 255, r * a / 255, a)
    ∧ (a = 255 → premultPixel r g b a = (b, g, r, 255))
    ∧ (a = 0 → premultPixel r g b a = (0, 0, 0, 0))
    ∧ (a = 128 →
        premultPixel r g b a = (b * 128 / 255, g * 128 / 255, r * 128 / 255, 128)) := by
  have e1 := Nat.mod_eq_of_lt (premulChannel_lt b a hb ha)
  have e2 := Nat.mod_eq_of_lt (premulChannel_lt g a hg ha)
  have e3 := Nat.mod_eq_of_lt (premulChannel_lt r a hr ha)
  have e4 := Nat.mod_eq_of_lt ha
  refine ⟨?_, ?_, ?_, ?_, ?_⟩
  · intro rest
    simp only [premultiplyBuffer, e1, e2, e3, e4]
  · simp only [premultPixel, e1, e2, e3, e4]
  · rintro rfl
    simp only [premultPixel, e1, e2, e3, e4, Prod.mk.injEq]
    refine ⟨by omega, by omega, by omega, trivial⟩
  · rintro rfl
    simp [premultPixel]
  · rintro rfl
    simp only [premultPixel, e1, e2, e3, e4]

/-- Witness for C4 at the boundary bytes (r, g, b, a) = (1, 254, 0, 128). -/
theorem premultiply_exact_witness :
    premultPixel 1 254 0 128 = (0 * 128 / 255, 254 * 128 / 255, 1 * 128 / 255, 128) :=
  ((premultiply_exact 1 254 0 128 (by decide) (by decide) (by decide)
    (by decide)).2.2.2.2) rfl

/-- C6: `restore_default_cursor` is a no-op when the flag is unset;
when the flag is set it issues exactly one OS restore call and resets
the flag regardless of the OS call's outcome `o1`, so an immediately
repeated call issues no OS call. -/
theorem restore_cursor_flag_gated (o1 o2 : Bool) :
    restore_default_cursor o1 false = (false, 0)
    ∧ restore_default_cursor o1 true = (false, 1)
    ∧ restore_default_cursor o2 (restore_default_cursor o1 true).1 = (false, 0) :=
  ⟨rfl, rfl, rfl⟩

/-- C7: the `CURSOR_CHANGED` flag starts `false` and is set to `true` by
`set_pick_cursor` exactly when decode, DIB creation, the bits-pointer
check, cursor creation and `SetSystemCursor` all succeed; on any failure
the flag keeps its previous value. -/
theorem cursor_flag_only_on_success (env : SetCursorEnv) (st : Bool) :
    (set_pick_cursor env st).1 =
      (if env.decodeOk && env.dibOk && !env.bitsNull && env.iconOk && env.installOk
        then true else st)
    ∧ CURSOR_CHANGED_INIT = false := by
  obtain ⟨d, di, bn, ic, ins⟩ := env
  refine ⟨?_, rfl⟩
  cases d <;> cases di <;> cases bn <;> cases ic <;> cases ins <;> rfl

/-- C8: handle accounting — `get_pixel_color` releases exactly as many
device contexts as it acquires on every path, and `set_pick_cursor`
releases its device context and deletes every bitmap it created on every
branch. -/
theorem handles_balanced (dcOk : Bool) (colorref : Nat)
    (env : SetCursorEnv) (st : Bool) :
    (get_pixel_color dcOk colorref).2.1 = (get_pixel_color dcOk colorref).2.2
    ∧ (set_pick_cursor env st).2.dcAcquired = (set_pick_cursor env st).2.dcReleased
    ∧ (set_pick_cursor env st).2.bmpCreated = (set_pick_cursor env st).2.bmpDeleted := by
  obtain ⟨d, di, bn, ic, ins⟩ := env
  refine ⟨?_, ?_, ?_⟩
  · unfold get_pixel_color
    split_ifs <;> rfl
  · cases d <;> cases di <;> cases bn <;> cases ic <;> cases ins <;> rfl
  · cases d <;> cases di <;> cases bn <;> cases ic <;> cases ins <;> rfl

/-- C10: the non-Windows fallbacks — the colour and zoom entry points
fail on every invocation with a fixed error and never return a success
value, and the cursor operations leave the cursor flag (and all other
state) unchanged. -/
theorem nonwindows_stubs (size : Nat) (st : Bool) :
    get_color_at_cursor_nonwindows
        = .error "Color picking is only supported on Windows"
    ∧ capture_zoom_preview_nonwindows size
        = .error "Zoom preview is only supported on Windows"
    ∧ (∀ info, get_color_at_cursor_nonwindows ≠ .ok info)
    ∧ (∀ d, capture_zoom_preview_nonwindows size ≠ .ok d)
    ∧ set_pick_cursor_nonwindows st = st
    ∧ restore_default_cursor_nonwindows st = st := by
  refine ⟨rfl, rfl, ?_, ?_, rfl, rfl⟩
  · intro info h
    exact Except.noConfusion h
  · intro d h
    exact Except.noConfusion h

/-- Each hexadecimal digit decodes back to its value. -/
theorem hexVal_hexDigit {d : Nat} (h : d < 16) : hexVal (hexDigit d) = some d := by
  interval_cases d <;> decide

/-- Each hexadecimal digit the formatter emits is `0`–`9` or `A`–`F`. -/
theorem isUpperHexDigit_hexDigit {d : Nat} (h : d < 16) :
    isUpperHexDigit (hexDigit d) = true := by
  interval_cases d <;> decide

/-- Decoding inverts encoding on byte triples. -/
theorem hex_roundtrip_aux (r g b : Nat) (hr : r < 256) (hg : g < 256)
    (hb : b < 256) : hex_to_rgb (rgb_to_hex r g b) = some (r, g, b) := by
  have h1 : hexVal (hexDigit (r / 16)) = some (r / 16) := hexVal_hexDigit (by omega)
  have h2 : hexVal (hexDigit (r % 16)) = some (r % 16) := hexVal_hexDigit (by omega)
  have h3 : hexVal (hexDigit (g / 16)) = some (g / 16) := hexVal_hexDigit (by omega)
  have h4 : hexVal (hexDigit (g % 16)) = some (g % 16) := hexVal_hexDigit (by omega)
  have h5 : hexVal (hexDigit (b / 16)) = some (b / 16) := hexVal_hexDigit (by omega)
  have h6 : hexVal (hexDigit (b % 16)) = some (b % 16) := hexVal_hexDigit (by omega)
  simp only [hex_to_rgb, rgb_to_hex, byteToHex, List.cons_append, List.nil_append,
    h1, h2, h3, h4, h5, h6, Option.bind_some, Option.some_bind]
  refine congrArg some ?_
  refine Prod.ext ?_ (Prod.ext ?_ ?_) <;> simp <;> omega

/-- A successful `get_color_at_cursor` carries the formatted hex of its
own in-range channel triple. -/
theorem get_color_hex_inv (cp : Except String (Int × Int)) (dcOk : Bool)
    (colorref : Nat) (info : ColorInfo)
    (h : get_color_at_cursor cp dcOk colorref = .ok info) :
    info.hex = rgb_to_hex info.rgb.1 info.rgb.2.1 info.rgb.2.2
    ∧ info.rgb.1 < 256 ∧ info.rgb.2.1 < 256 ∧ info.rgb.2.2 < 256 := by
  rcases cp with e | ⟨x, y⟩
  · simp [get_color_at_cursor, Bind.bind, Except.bind] at h
  by_cases hdc : dcOk
  · by_cases hcr : colorref = CLR_INVALID
    · simp [get_color_at_cursor, get_pixel_color, hdc, hcr, Bind.bind, Except.bind] at h
    · simp [get_color_at_cursor, get_pixel_color, hdc, hcr, Bind.bind, Except.bind] at h
      subst h
      exact ⟨rfl, Nat.mod_lt _ (by omega), Nat.mod_lt _ (by omega),
        Nat.mod_lt _ (by omega)⟩
  · simp [get_color_at_cursor, get_pixel_color, hdc, Bind.bind, Except.bind] at h

/-- A successful `capture_zoom_preview` carries the formatted hex of its
own in-range centre-colour triple. -/
theorem capture_hex_inv (env : ZoomEnv) (size : Nat) (d : ZoomPreviewData)
    (h : capture_zoom_preview env size = .ok d) :
    d.center_color.hex = rgb_to_hex d.center_color.rgb.1 d.center_color.rgb.2.1
        d.center_color.rgb.2.2
    ∧ d.center_color.rgb.1 < 256 ∧ d.center_color.rgb.2.1 < 256
    ∧ d.center_color.rgb.2.2 < 256 := by
  obtain ⟨cp, dcOk, cref, mons, cap, enc⟩ := env
  rcases cp with e | ⟨cx, cy⟩
  · simp [capture_zoom_preview, Bind.bind, Except.bind] at h
  by_cases hdc : dcOk
  · by_cases hcr : cref = CLR_INVALID
    · simp [capture_zoom_preview, get_pixel_color, hdc, hcr, Bind.bind, Except.bind] at h
    rcases mons with e | ms
    · simp [capture_zoom_preview, get_pixel_color, hdc, hcr, Bind.bind, Except.bind] at h
    cases hfm : findMonitor ms cx cy with
    | none => simp [capture_zoom_preview, get_pixel_color, hdc, hcr, hfm,
        Bind.bind, Except.bind] at h
    | some m =>
      rcases cap with e | ⟨⟩
      · simp [capture_zoom_preview, get_pixel_color, hdc, hcr, hfm,
          Bind.bind, Except.bind] at h
      rcases enc with e | s
      · simp [capture_zoom_preview, get_pixel_color, hdc, hcr, hfm,
          Bind.bind, Except.bind] at h
      simp [capture_zoom_preview, get_pixel_color, hdc, hcr, hfm,
        Bind.bind, Except.bind] at h
      subst h
      exact ⟨rfl, Nat.mod_lt _ (by omega), Nat.mod_lt _ (by omega),
        Nat.mod_lt _ (by omega)⟩
  · simp [capture_zoom_preview, get_pixel_color, hdc, Bind.bind, Except.bind] at h

/-- C5: the hex string attached to every returned colour triple is the
canonical uppercase `#RRGGBB` rendering of that triple — seven
characters, a leading `#`, uppercase hexadecimal digits — and decoding
it returns the original triple; this covers the triples produced by
`get_color_at_cursor` and by `capture_zoom_preview`'s centre colour. -/
theorem hex_roundtrip_canonical (r g b : Nat)
    (hr : r < 256) (hg : g < 256) (hb : b < 256) :
    hex_to_rgb (rgb_to_hex r g b) = some (r, g, b)
    ∧ (rgb_to_hex r g b).data.length = 7
    ∧ (rgb_to_hex r g b).data.head? = some '#'
    ∧ (∀ c ∈ (rgb_to_hex r g b).data.tail, isUpperHexDigit c = true)
    ∧ (∀ cp dcOk colorref info,
        get_color_at_cursor cp dcOk colorref = .ok info →
        info.hex = rgb_to_hex info.rgb.1 info.rgb.2.1 info.rgb.2.2
        ∧ hex_to_rgb info.hex = some info.rgb)
    ∧ (∀ env size d, capture_zoom_preview env size = .ok d →
        d.center_color.hex = rgb_to_hex d.center_color.rgb.1
            d.center_color.rgb.2.1 d.center_color.rgb.2.2
        ∧ hex_to_rgb d.center_color.hex = some d.center_color.rgb) := by
  refine ⟨hex_roundtrip_aux r g b hr hg hb, rfl, rfl, ?_, ?_, ?_⟩
  · intro c hc
    simp [rgb_to_hex, byteToHex] at hc
    rcases hc with rfl | rfl | rfl | rfl | rfl | rfl <;>
      exact isUpperHexDigit_hexDigit (by omega)
  · intro cp dcOk colorref info h
    obtain ⟨hhex, h1, h2, h3⟩ := get_color_hex_inv cp dcOk colorref info h
    refine ⟨hhex, ?_⟩
    rw [hhex, hex_roundtrip_aux _ _ _ h1 h2 h3]
  · intro env size d h
    obtain ⟨hhex, h1, h2, h3⟩ := capture_hex_inv env size d h
    refine ⟨hhex, ?_⟩
    rw [hhex, hex_roundtrip_aux _ _ _ h1 h2 h3]

/-- Witness for C5 at the triple (0, 255, 128). -/
theorem hex_roundtrip_canonical_witness :
    hex_to_rgb (rgb_to_hex 0 255 128) = some (0, 255, 128)
    ∧ rgb_to_hex 0 255 128 = "#00FF80" :=
  ⟨(hex_roundtrip_canonical 0 255 128 (by decide) (by decide) (by decide)).1, rfl⟩

/-- The in-range side conditions `serde` checks when reading an entry
back: the three channels fit `u8` and the timestamp fits `u64` (they do
for every value the Rust types can hold). -/
def entryValid (e : ColorEntry) : Prop :=
  e.rgb.1 < 256 ∧ e.rgb.2.1 < 256 ∧ e.rgb.2.2 < 256
    ∧ e.timestamp < 18446744073709551616

instance (e : ColorEntry) : Decidable (entryValid e) := by
  unfold entryValid
  infer_instance

/-- One entry survives a serialise/deserialise cycle, whether or not the
optional label is present. -/
theorem deserializeEntry_serializeEntry (e : ColorEntry) (h : entryValid e) :
    deserializeEntry (serializeEntry e) = some e := by
  obtain ⟨hr, hg, hb, ht⟩ := h
  obtain ⟨id, hx, ⟨r, g, b⟩, ts, lab⟩ := e
  simp only [ColorEntry.rgb] at hr hg hb
  simp only [ColorEntry.timestamp] at ht
  cases lab <;>
    simp [serializeEntry, deserializeEntry, jLookup, List.find?, asStr, asU8, asU64,
      hr, hg, hb, ht, Bind.bind, Option.bind]

/-- A full entry list survives a serialise/deserialise cycle. -/
theorem deserializeEntries_serializeEntries (es : List ColorEntry)
    (h : ∀ e ∈ es, entryValid e) :
    deserializeEntries (serializeEntries es) = some es := by
  induction es with
  | nil => rfl
  | cons e es ih =>
    have he := h e (List.mem_cons_self e es)
    have hes := ih (fun x hx => h x (List.mem_cons_of_mem e hx))
    simp only [serializeEntries, deserializeEntries, List.map_cons,
      deserializeEntryList] at *
    rw [deserializeEntry_serializeEntry e he]
    simp [hes, Bind.bind, Option.bind]

/-- C9: with a resolvable storage path, loading while the history file
is absent yields the empty list rather than an error, and saving any
entry sequence — including entries without a label — then loading
returns exactly that sequence. -/
theorem history_missing_empty_and_roundtrip (env : StorageEnv)
    (es : List ColorEntry) (hpath : env.pathOk = true)
    (hwrite : env.writeOk = true) (hval : ∀ e ∈ es, entryValid e) :
    (env.file = none → load_color_history env = .ok [])
    ∧ ∃ env2, save_color_history env es = .ok env2
        ∧ load_color_history env2 = .ok es := by
  constructor
  · intro hf
    simp [load_color_history, hpath, hf]
  · refine ⟨{ env with file := some (serializeEntries es) }, ?_, ?_⟩
    · simp [save_color_history, hpath, hwrite]
    · simp [load_color_history, hpath,
        deserializeEntries_serializeEntries es hval]

/-- Witness for C9: an empty store plus a two-entry list, one entry
with no label and one with a label. -/
theorem history_missing_empty_and_roundtrip_witness :
    load_color_history ⟨true, none, true⟩ = .ok []
    ∧ ∃ env2,
        save_color_history ⟨true, none, true⟩
            [⟨"a1", "#010203", (1, 2, 3), 7, none⟩,
             ⟨"b2", "#FFFFFF", (255, 255, 255), 8, some "wall"⟩] = .ok env2
        ∧ load_color_history env2 = .ok
            [⟨"a1", "#010203", (1, 2, 3), 7, none⟩,
             ⟨"b2", "#FFFFFF", (255, 255, 255), 8, some "wall"⟩] := by
  have h := history_missing_empty_and_roundtrip ⟨true, none, true⟩
    [⟨"a1", "#010203", (1, 2, 3), 7, none⟩,
     ⟨"b2", "#FFFFFF", (255, 255, 255), 8, some "wall"⟩]
    rfl rfl (by decide)
  exact ⟨h.1 rfl, h.2⟩

/-- The monitor selected by `findMonitor` contains the pointer. -/
theorem found_monitor_contains (ms : List Display) (cx cy : Int) (m : Display)
    (h : findMonitor ms cx cy = some m) :
    m.x ≤ cx ∧ cx < m.x + m.w ∧ m.y ≤ cy ∧ cy < m.y + m.h := by
  have hp := List.find?_some h
  simp only [containsPt, Bool.and_eq_true, decide_eq_true_eq, ge_iff_le] at hp
  obtain ⟨⟨⟨h1, h2⟩, h3⟩, h4⟩ := hp
  exact ⟨h1, h2, h3, h4⟩

/-- C1: whenever some display contains the pointer, the capture
rectangle has a non-negative origin and fits inside that display's
bounds; its origin is `(rel - size/2)` clamped componentwise to `≥ 0`,
each extent is `min(size, display extent - clamped origin)`, and a
successful `capture_zoom_preview` reports exactly these extents as its
`width`/`height`; when no display contains the pointer the call fails
with the no-containing-display error. -/
theorem capture_rect_spec (size : Nat) (cx cy : Int) (ms : List Display)
    (hsz : size < 4294967296) :
    (∀ m, findMonitor ms cx cy = some m → m.w < 2147483648 → m.h < 2147483648 →
      0 ≤ (captureBounds size m cx cy).x
      ∧ 0 ≤ (captureBounds size m cx cy).y
      ∧ (captureBounds size m cx cy).x + (captureBounds size m cx cy).w ≤ m.w
      ∧ (captureBounds size m cx cy).y + (captureBounds size m cx cy).h ≤ m.h
      ∧ (captureBounds size m cx cy).x = max (cx - m.x - (size / 2 : Nat)) 0
      ∧ (captureBounds size m cx cy).y = max (cy - m.y - (size / 2 : Nat)) 0
      ∧ (captureBounds size m cx cy).w
          = min size (m.w - (captureBounds size m cx cy).x).toNat
      ∧ (captureBounds size m cx cy).h
          = min size (m.h - (captureBounds size m cx cy).y).toNat
      ∧ ∀ colorref img, colorref ≠ CLR_INVALID →
          ∃ d, capture_zoom_preview
              ⟨.ok (cx, cy), true, colorref, .ok ms, .ok (), .ok img⟩ size = .ok d
            ∧ d.width = (captureBounds size m cx cy).w
            ∧ d.height = (captureBounds size m cx cy).h)
    ∧ ((∀ m ∈ ms, containsPt m cx cy = false) →
        ∀ colorref cap enc, colorref ≠ CLR_INVALID →
          capture_zoom_preview ⟨.ok (cx, cy), true, colorref, .ok ms, cap, enc⟩ size
            = .error "Could not find monitor containing cursor") := by
  constructor
  · intro m hfind hw hh
    obtain ⟨h1, h2, h3, h4⟩ := found_monitor_contains ms cx cy m hfind
    refine ⟨?_, ?_, ?_, ?_, ?_, ?_, ?_, ?_, ?_⟩
    · simp only [captureBounds]; omega
    · simp only [captureBounds]; omega
    · simp only [captureBounds, u32cast]; omega
    · simp only [captureBounds, u32cast]; omega
    · simp only [captureBounds]
    · simp only [captureBounds]
    · simp only [captureBounds, u32cast]; omega
    · simp only [captureBounds, u32cast]; omega
    · intro colorref img hcr
      have hcap : capture_zoom_preview
          ⟨.ok (cx, cy), true, colorref, .ok ms, .ok (), .ok img⟩ size
          = .ok { image_data := img
                  center_color :=
                    { hex := rgb_to_hex (colorref % 256) (colorref / 256 % 256)
                        (colorref / 65536 % 256)
                      rgb := (colorref % 256, colorref / 256 % 256,
                        colorref / 65536 % 256)
                      x := cx, y := cy }
                  width := (captureBounds size m cx cy).w
                  height := (captureBounds size m cx cy).h } := by
        simp [capture_zoom_preview, get_pixel_color, hcr, hfind, Bind.bind, Except.bind]
      exact ⟨_, hcap, rfl, rfl⟩
  · intro hnone colorref cap enc hcr
    have hfm : findMonitor ms cx cy = none := by
      apply List.find?_eq_none.mpr
      intro m hm
      simp [hnone m hm]
    simp [capture_zoom_preview, get_pixel_color, hcr, hfm, Bind.bind, Except.bind]

/-- Witness for C1: a 1920×1080 display at the origin, pointer at
(100, 100), requested size 500. -/
theorem capture_rect_spec_witness :
    ∃ d, capture_zoom_preview
        ⟨.ok (100, 100), true, 0, .ok [⟨0, 0, 1920, 1080⟩], .ok (), .ok "IMG"⟩ 500
        = .ok d ∧ d.width = 500 ∧ d.height = 500 := by
  obtain ⟨hfound, -⟩ := capture_rect_spec 500 100 100 [⟨0, 0, 1920, 1080⟩] (by decide)
  obtain ⟨-, -, -, -, -, -, -, -, hd⟩ :=
    hfound ⟨0, 0, 1920, 1080⟩ (by decide) (by decide) (by decide)
  obtain ⟨d, hcap, hdw, hdh⟩ := hd 0 "IMG" (by decide)
  refine ⟨d, hcap, ?_, ?_⟩
  · rw [hdw]; rfl
  · rw [hdh]; rfl

/-- C2 counterexample: with a single 1920×1080 display at the origin,
pointer at (1919, 1079) and requested size 500, the code returns the
capture extents 251×251, not the claimed 1×1 — the clamped extent is
measured from the clamped origin `1919 - 250 = 1669`, so
`min(500, 1920 - 1669) = 251` per axis. -/
theorem corner_capture_counterexample :
    (capture_zoom_preview
        ⟨.ok (1919, 1079), true, 0, .ok [⟨0, 0, 1920, 1080⟩], .ok (), .ok "IMG"⟩ 500).map
          (fun d => (d.width, d.height)) = .ok (251, 251)
    ∧ ((251, 251) : Nat × Nat) ≠ (1, 1) := by
  constructor
  · rfl
  · decide

/-- C2 amended: with the pointer at the far corner of its display and a
requested size of at least 3, both returned extents are strictly less
than the requested size (clamped to `min(size, extent - clamped
origin)`, the space remaining from the clamped origin, not from the
pointer); in the concrete 1920×1080 / (1919, 1079) / size-500 scenario
the capture rectangle is origin (1669, 829) with width = height = 251. -/
theorem corner_capture_amended (size : Nat) (m : Display)
    (hsz3 : 3 ≤ size) (hsz : size < 4294967296)
    (hw1 : 1 ≤ m.w) (hh1 : 1 ≤ m.h)
    (hw : m.w < 2147483648) (hh : m.h < 2147483648) :
    (captureBounds size m (m.x + m.w - 1) (m.y + m.h - 1)).w < size
    ∧ (captureBounds size m (m.x + m.w - 1) (m.y + m.h - 1)).h < size
    ∧ captureBounds 500 ⟨0, 0, 1920, 1080⟩ 1919 1079 = ⟨1669, 829, 251, 251⟩ := by
  refine ⟨?_, ?_, by decide⟩
  · simp only [captureBounds, u32cast]
    omega
  · simp only [captureBounds, u32cast]
    omega

/-- Witness for C2's amended statement on the 1920×1080 corner case. -/
theorem corner_capture_amended_witness :
    (captureBounds 500 ⟨0, 0, 1920, 1080⟩ 1919 1079).w < 500
    ∧ (captureBounds 500 ⟨0, 0, 1920, 1080⟩ 1919 1079).h < 500 := by
  have h := corner_capture_amended 500 ⟨0, 0, 1920, 1080⟩ (by decide) (by decide)
    (by decide) (by decide) (by decide) (by decide)
  exact ⟨h.1, h.2.1⟩
